import Mathlib

/-!
# Verification of the MCP gateway policy control plane

Shallow embedding of the two core services of the repository:

* `governance-evaluator/evaluator.py` — the constraint-evaluation sidecar
  (`evaluate_constraints`, `EvaluatorHandler.do_POST`);
* `bundle-server/server.py` — the OPA bundle builder and distribution server
  (`fetch_npl_data`, `build_bundle`, `rebuild`, `BundleHandler.serve_bundle`,
  `BundleHandler.serve_health`).

Conventions of the embedding:

* Parsed JSON values are modelled by the inductive type `Json`; Python dicts
  become association lists in insertion order (keys unique, as in Python).
  JSON numbers are modelled as integers (the policy data of this system
  carries no fractional numbers).
* Calls into external libraries that the claims quantify over are taken as
  function parameters: `json.loads` becomes a parameter of type
  `String → Option Json` (`none` = parse exception) and `re.search` becomes a
  total boolean oracle `String → String → Bool`.
* A Python statement that raises an exception which no enclosing `try` catches
  is modelled by an explicit `crash` outcome (the HTTP layer then closes the
  connection without any response).
* Wall-clock instants are modelled at second granularity as naturals.
-/

/-- A parsed JSON value.  Objects are association lists in insertion order;
numbers are modelled as integers. -/
inductive Json where
  | null : Json
  | bool (b : Bool) : Json
  | num (n : Int) : Json
  | str (s : String) : Json
  | arr (xs : List Json) : Json
  | obj (kvs : List (String × Json)) : Json

/-- First-match association-list lookup (Python dict lookup: keys are unique). -/
def jlookup : List (String × Json) → String → Option Json
  | [], _ => none
  | (k, v) :: kvs, key => if k = key then some v else jlookup kvs key

/-- Python truthiness of a parsed JSON value (`if x:`). -/
def Json.truthy : Json → Bool
  | .null => false
  | .bool b => b
  | .num n => n != 0
  | .str s => s != ""
  | .arr xs => !xs.isEmpty
  | .obj kvs => !kvs.isEmpty

/-- `d.get(k, default)` on a parsed JSON object.  (On a non-object Python
would raise `AttributeError`; the call sites modelled with this helper are
only reached with objects.) -/
def jgetD (j : Json) (k : String) (dflt : Json) : Json :=
  match j with
  | .obj kvs => (jlookup kvs k).getD dflt
  | _ => dflt

/-- Python dict assignment `d[k] = v`: replace the value of an existing key in
place, else append the new key at the end (insertion order). -/
def jset : List (String × Json) → String → Json → List (String × Json)
  | [], key, v => [(key, v)]
  | (k, w) :: kvs, key, v =>
    if k = key then (k, v) :: kvs else (k, w) :: jset kvs key v

/-- A single-quote character, used when rebuilding Python message strings. -/
def pyQ : String := String.singleton (Char.ofNat 39)

/-- Substring test, Python `sub in hay` (the empty string is in everything). -/
def pyInStr (sub hay : String) : Bool :=
  go hay.toList
where
  go : List Char → Bool
  | [] => sub.toList.isEmpty
  | c :: cs => (sub.toList.isPrefixOf (c :: cs)) || go cs

/-- Python whitespace accepted by `int(...)`. -/
def pySpace (c : Char) : Bool :=
  c = ' ' || c = Char.ofNat 9 || c = Char.ofNat 10 || c = Char.ofNat 11 ||
  c = Char.ofNat 12 || c = Char.ofNat 13

/-- One lowercase hexadecimal digit. -/
def hexDigit (n : Nat) : Char :=
  if n < 10 then Char.ofNat (48 + n) else Char.ofNat (87 + (n % 16))

/-- Two lowercase hexadecimal digits. -/
def hex2 (n : Nat) : String :=
  String.mk [hexDigit (n / 16 % 16), hexDigit (n % 16)]

/-- Four lowercase hexadecimal digits. -/
def hex4 (n : Nat) : String :=
  String.mk [hexDigit (n / 4096 % 16), hexDigit (n / 256 % 16),
             hexDigit (n / 16 % 16), hexDigit (n % 16)]

/-- One character of a Python string `repr`, given the chosen quote character.
Backslash and the quote are escaped, `\n`/`\r`/`\t` get their short escapes and
the remaining ASCII control characters become `\xNN`.  (Non-printable
characters beyond ASCII are left literal; the policy strings of this system
are ASCII.) -/
def pyReprChar (quote : Char) (c : Char) : String :=
  if c = Char.ofNat 92 then String.mk [Char.ofNat 92, Char.ofNat 92]
  else if c = quote then String.mk [Char.ofNat 92, quote]
  else if c = Char.ofNat 10 then String.mk [Char.ofNat 92, 'n']
  else if c = Char.ofNat 13 then String.mk [Char.ofNat 92, 'r']
  else if c = Char.ofNat 9 then String.mk [Char.ofNat 92, 't']
  else if c.toNat < 32 || c.toNat = 127 then
    String.singleton (Char.ofNat 92) ++ "x" ++ hex2 c.toNat
  else String.singleton c

/-- Python `repr` of a string: single quotes, unless the string contains a
single quote and no double quote. -/
def pyReprStr (s : String) : String :=
  let dq : Char := Char.ofNat 34
  let squote : Char := Char.ofNat 39
  let quote := if s.toList.contains squote && !(s.toList.contains dq)
               then dq else squote
  String.singleton quote ++ String.join (s.toList.map (pyReprChar quote)) ++
    String.singleton quote

/-- Python `str`/`repr` of a list of strings, as interpolated by the f-strings
of `evaluate_constraints` (e.g. `['a', 'b']`). -/
def pyReprStrList (xs : List String) : String :=
  "[" ++ String.intercalate ", " (xs.map pyReprStr) ++ "]"

mutual
/-- Python `repr` of a parsed JSON value. -/
def pyRepr : Json → String
  | .null => "None"
  | .bool b => if b then "True" else "False"
  | .num n => toString n
  | .str s => pyReprStr s
  | .arr xs => "[" ++ pyReprArr xs ++ "]"
  | .obj kvs => "\x7b" ++ pyReprObj kvs ++ "\x7d"

def pyReprArr : List Json → String
  | [] => ""
  | [x] => pyRepr x
  | x :: xs => pyRepr x ++ ", " ++ pyReprArr xs

def pyReprObj : List (String × Json) → String
  | [] => ""
  | [(k, v)] => pyReprStr k ++ ": " ++ pyRepr v
  | (k, v) :: kvs => pyReprStr k ++ ": " ++ pyRepr v ++ ", " ++ pyReprObj kvs
end

/-- Python `str(...)` of a parsed JSON value (`str` of a `str` is itself;
containers print as their `repr`). -/
def pyStr : Json → String
  | .str s => s
  | j => pyRepr j

/-- Decimal value of a list of ASCII digits. -/
def digitsToNat : List Char → Nat
  | [] => 0
  | c :: cs => (c.toNat - 48) * 10 ^ cs.length + digitsToNat cs

/-- Python `int(str)`: optional surrounding whitespace, one optional sign, a
nonempty run of ASCII digits; everything else raises `ValueError` (`none`).
(Underscore digit grouping and non-ASCII digits are not modelled.) -/
def pyInt : String → Option Int := fun s =>
  let t := ((s.toList.dropWhile pySpace).reverse.dropWhile pySpace).reverse
  match t with
  | [] => none
  | c :: rest =>
    let signed : Bool × List Char :=
      if c = '-' then (true, rest) else if c = '+' then (false, rest) else (false, t)
    if signed.2 ≠ [] ∧ signed.2.all (·.isDigit) then
      some ((if signed.1 then -1 else 1) * (digitsToNat signed.2 : Int))
    else none

/-! ## Governance evaluator: constraint evaluation (`evaluator.py`) -/

/-- One constraint record of a `ToolConfig`, with the defaults that
`evaluate_constraints` applies via `c.get(...)` already folded in. -/
structure Constraint where
  paramName : String
  operator : String
  values : List String
  description : String

/-- A cached tool config, as used by the evaluator.  `requiresApproval` is
`none` when the record lacks the field (`tool_config.get("requiresApproval",
True)` then defaults it). -/
structure ToolConfig where
  requiresApproval : Option Bool
  constraints : List Constraint

/-- Outcome of evaluating a single constraint against the arguments:
skipped (argument absent), passed, violated with the synthesized detail, or an
uncaught Python exception. -/
inductive CStep where
  | skip : CStep
  | pass : CStep
  | viol (detail : String) : CStep
  | crash : CStep

/-- One iteration of the loop body of `evaluate_constraints`.  `res` is the
`re.search` oracle (pattern, string).  `arguments.get(param)` on a non-object
raises (`crash`); a missing argument or a JSON `null` argument gives Python
`None` and is skipped; `int(values[0])` raises on a non-numeric string. -/
def evalConstraint (res : String → String → Bool) (c : Constraint)
    (args : Json) : CStep :=
  match args with
  | .obj kvs =>
    match jlookup kvs c.paramName with
    | none => .skip
    | some .null => .skip
    | some v =>
      let s := pyStr v
      if c.operator = "in" then
        if c.values.contains s then .pass
        else .viol (pyQ ++ c.paramName ++ pyQ ++ " value " ++ pyQ ++ s ++ pyQ ++
          " not in allowed list " ++ pyReprStrList c.values)
      else if c.operator = "not_in" then
        if c.values.contains s then
          .viol (pyQ ++ c.paramName ++ pyQ ++ " value " ++ pyQ ++ s ++ pyQ ++
            " is in blocked list")
        else .pass
      else if c.operator = "contains" then
        if c.values.any (fun sub => pyInStr sub s) then .pass
        else .viol (pyQ ++ c.paramName ++ pyQ ++ " must contain one of " ++
          pyReprStrList c.values)
      else if c.operator = "not_contains" then
        let found := c.values.filter (fun sub => pyInStr sub s)
        if found.isEmpty then .pass
        else .viol (pyQ ++ c.paramName ++ pyQ ++ " must not contain " ++
          pyReprStrList found)
      else if c.operator = "regex" then
        if c.values.any (fun p => res p s) then .pass
        else .viol (pyQ ++ c.paramName ++ pyQ ++
          " does not match any allowed pattern")
      else if c.operator = "max_length" then
        match c.values.head? with
        | none =>
          if (s.length : Int) > 0 then
            .viol (pyQ ++ c.paramName ++ pyQ ++ " length " ++
              toString s.length ++ " exceeds max 0")
          else .pass
        | some v0 =>
          match pyInt v0 with
          | none => .crash
          | some m =>
            if (s.length : Int) > m then
              .viol (pyQ ++ c.paramName ++ pyQ ++ " length " ++
                toString s.length ++ " exceeds max " ++ toString m)
            else .pass
      else .pass
  | _ => .crash

/-- Result of `evaluate_constraints`: either an uncaught exception, or the
`(passed, message)` pair the function returns. -/
inductive CRes where
  | crash : CRes
  | done (passed : Bool) (msg : String) : CRes

/-- The message built on a violation: the constraint's `description` when
nonempty (Python truthiness), otherwise the synthesized detail. -/
def violMsg (description detail : String) : String :=
  if description = "" then "Constraint violated: " ++ detail
  else "Constraint violated: " ++ description

/-- The `for c in constraints` loop of `evaluate_constraints`: sequential in
declaration order, returning at the first violation. -/
def evalLoop (res : String → String → Bool) (args : Json) :
    List Constraint → CRes
  | [] => .done true "Constraints satisfied"
  | c :: rest =>
    match evalConstraint res c args with
    | .crash => .crash
    | .viol d => .done false (violMsg c.description d)
    | _ => evalLoop res args rest

/-- `evaluate_constraints(tool_config, arguments)` (evaluator.py:144-201). -/
def evaluate_constraints (res : String → String → Bool) (cfg : ToolConfig)
    (args : Json) : CRes :=
  evalLoop res args cfg.constraints

/-! ## Governance evaluator: the `/evaluate` handler (`do_POST`) -/

/-- Generic first-match association-list lookup (Python dict `.get`). -/
def alistGet {α : Type} : List (String × α) → String → Option α
  | [], _ => none
  | (k, v) :: kvs, key => if k = key then some v else alistGet kvs key

/-- One entry of the evaluator's config cache:
`{serviceName → {instanceId, toolConfigs}}`.  A cached entry is a nonempty
dict, so Python's `if not svc_entry` is exactly a cache miss; likewise every
cached tool config dict is nonempty (it carries at least `toolName`), so
`if not tool_config` is exactly a miss. -/
structure SvcEntry where
  instanceId : String
  toolConfigs : List (String × ToolConfig)

/-- Outcome of one HTTP handler invocation: a JSON reply with a status code,
or an uncaught exception (the server then closes the connection without
sending any response). -/
inductive HOutcome where
  | reply (status : Nat) (body : Json) : HOutcome
  | crash : HOutcome

/-- The `{decision, requestId, message}` response shape. -/
def decisionObj (decision requestId message : String) : Json :=
  .obj [("decision", .str decision), ("requestId", .str requestId),
        ("message", .str message)]

/-- Forwarding to NPL and replying: the authority's JSON is returned verbatim
with status 200; an exception during the forward becomes a deny
(fail-closed).  `fw` is the outcome of `forward_to_npl` for this request. -/
def forwardReply (fw : Except String Json) : HOutcome :=
  match fw with
  | .ok j => .reply 200 j
  | .error e =>
    .reply 200 (decisionObj "deny" "" ("Governance evaluation failed: " ++ e))

/-- `json.loads(arguments_str) if isinstance(arguments_str, str) else
arguments_str`, with `JSONDecodeError`/`TypeError` caught to `{}`.
`pj` is the `json.loads` oracle. -/
def parsedArgs (pj : String → Option Json) (argumentsStr : Json) : Json :=
  match argumentsStr with
  | .str s => (pj s).getD (.obj [])
  | j => j

/-- A POST request as `do_POST` observes it: the path, the Content-Length,
and the result of `json.loads` on the body (`none` = the body is not valid
JSON, so `json.loads` raises). -/
structure PostReq where
  path : String
  contentLength : Nat
  body : Option Json

/-- `EvaluatorHandler.do_POST` (evaluator.py:254-337).  `cache` is the config
cache snapshot, `fw` the outcome of `forward_to_npl` for this request, `res`
the `re.search` oracle and `pj` the `json.loads` oracle for the `arguments`
field.  A `.get` on a non-dict body, an unhashable `serviceName`/`toolName`,
or an uncaught exception inside constraint evaluation crashes the handler. -/
def do_POST (cache : List (String × SvcEntry)) (fw : Except String Json)
    (res : String → String → Bool) (pj : String → Option Json)
    (req : PostReq) : HOutcome :=
  if req.path ≠ "/evaluate" then
    .reply 404 (.obj [("error", .str "Not found")])
  else if req.contentLength = 0 then
    .reply 400 (.obj [("error", .str "Empty body")])
  else
    match req.body with
    | none => .crash
    | some bodyJ =>
      match bodyJ with
      | .obj bodyKvs =>
        let serviceName := (jlookup bodyKvs "serviceName").getD (.str "")
        let toolName := (jlookup bodyKvs "toolName").getD (.str "")
        let argumentsStr := (jlookup bodyKvs "arguments").getD (.str "\x7b\x7d")
        if !serviceName.truthy then
          .reply 400 (.obj [("error", .str "serviceName required")])
        else
          match serviceName with
          | .arr _ => .crash
          | .obj _ => .crash
          | _ =>
            match (match serviceName with
                   | .str s => alistGet cache s
                   | _ => none) with
            | none =>
              .reply 200 (decisionObj "deny" ""
                ("No governance instance for service " ++ pyQ ++
                 pyStr serviceName ++ pyQ))
            | some entry =>
              match toolName with
              | .arr _ => .crash
              | .obj _ => .crash
              | _ =>
                let toolConfig := match toolName with
                  | .str t => alistGet entry.toolConfigs t
                  | _ => none
                let args := parsedArgs pj argumentsStr
                match toolConfig with
                | none => forwardReply fw
                | some cfg =>
                  match evaluate_constraints res cfg args with
                  | .crash => .crash
                  | .done passed msg =>
                    if !passed then .reply 200 (decisionObj "deny" "" msg)
                    else if !(cfg.requiresApproval.getD true) then
                      .reply 200 (decisionObj "allow" "" "Constraints satisfied")
                    else forwardReply fw
      | _ => .crash

/-! ## Bundle server: canonical JSON serialization (`json.dumps`) -/

/-- One character of a JSON string under `json.dumps` defaults
(`ensure_ascii=True`): short escapes for the quote, backslash and common
controls, `\u00NN` for the remaining controls, `\uNNNN` (with surrogate
pairs) for every non-ASCII character. -/
def jsonChar (c : Char) : String :=
  let bsl := String.singleton (Char.ofNat 92)
  let n := c.toNat
  if c = Char.ofNat 34 then bsl ++ String.singleton (Char.ofNat 34)
  else if c = Char.ofNat 92 then bsl ++ bsl
  else if c = Char.ofNat 10 then bsl ++ "n"
  else if c = Char.ofNat 13 then bsl ++ "r"
  else if c = Char.ofNat 9 then bsl ++ "t"
  else if c = Char.ofNat 8 then bsl ++ "b"
  else if c = Char.ofNat 12 then bsl ++ "f"
  else if n < 32 then bsl ++ "u" ++ hex4 n
  else if n < 127 then String.singleton c
  else if n < 65536 then bsl ++ "u" ++ hex4 n
  else
    let m := n - 65536
    bsl ++ "u" ++ hex4 (55296 + m / 1024) ++ bsl ++ "u" ++ hex4 (56320 + m % 1024)

/-- A JSON string literal under `json.dumps` defaults. -/
def jsonStrLit (s : String) : String :=
  String.singleton (Char.ofNat 34) ++ String.join (s.toList.map jsonChar) ++
    String.singleton (Char.ofNat 34)

mutual
/-- Order-preserving JSON serialization with the minimal separators
`(",", ":")` — the serialization part of `json.dumps(d,
separators=(",", ":"))`, before any key sorting. -/
def jser : Json → String
  | .null => "null"
  | .bool b => if b then "true" else "false"
  | .num n => toString n
  | .str s => jsonStrLit s
  | .arr xs => "[" ++ jserArr xs ++ "]"
  | .obj kvs => "\x7b" ++ jserObj kvs ++ "\x7d"

def jserArr : List Json → String
  | [] => ""
  | [x] => jser x
  | x :: xs => jser x ++ "," ++ jserArr xs

def jserObj : List (String × Json) → String
  | [] => ""
  | [(k, v)] => jsonStrLit k ++ ":" ++ jser v
  | (k, v) :: kvs => jsonStrLit k ++ ":" ++ jser v ++ "," ++ jserObj kvs
end

/-- Key comparison used when sorting object entries, mirroring Python's
`sorted(d.items())`: code-point lexicographic order on the key strings
(a dict's keys are distinct, so the value component never decides). -/
def keyLe (a b : String × Json) : Bool := a.1 ≤ b.1

mutual
/-- Recursively sort every object's entries by key — the key ordering that
`json.dumps(..., sort_keys=True)` applies while serializing. -/
def canon : Json → Json
  | .null => .null
  | .bool b => .bool b
  | .num n => .num n
  | .str s => .str s
  | .arr xs => .arr (canonArr xs)
  | .obj kvs => .obj (List.mergeSort (canonObj kvs) keyLe)

def canonArr : List Json → List Json
  | [] => []
  | x :: xs => canon x :: canonArr xs

def canonObj : List (String × Json) → List (String × Json)
  | [] => []
  | (k, v) :: kvs => (k, canon v) :: canonObj kvs
end

/-- `json.dumps(d, separators=(",", ":"), sort_keys=True)`: canonical
serialization — keys sorted recursively, minimal separators. -/
def dumpsCanonical (d : Json) : String := jser (canon d)

mutual
/-- Well-formed parsed JSON: every object has distinct keys, recursively.
Every value produced by Python's `json.loads` or built from Python dicts
satisfies this (a dict cannot hold a key twice). -/
def wfJ : Json → Bool
  | .null => true
  | .bool _ => true
  | .num _ => true
  | .str _ => true
  | .arr xs => wfArr xs
  | .obj kvs => decide (kvs.map Prod.fst).Nodup && wfObj kvs

def wfArr : List Json → Bool
  | [] => true
  | x :: xs => wfJ x && wfArr xs

def wfObj : List (String × Json) → Bool
  | [] => true
  | (_, v) :: kvs => wfJ v && wfObj kvs
end

/-! ## SHA-256 (`hashlib.sha256(...).hexdigest()`) -/

/-- Truncate to a 32-bit word. -/
def w32 (n : Nat) : Nat := n % 4294967296

/-- 32-bit right rotation. -/
def rotr (k x : Nat) : Nat := w32 ((x >>> k) ||| (x <<< (32 - k)))

/-- UTF-8 encoding of one character, as a list of byte values. -/
def utf8Char (c : Char) : List Nat :=
  let n := c.toNat
  if n < 128 then [n]
  else if n < 2048 then [192 + n / 64, 128 + n % 64]
  else if n < 65536 then [224 + n / 4096, 128 + n / 64 % 64, 128 + n % 64]
  else [240 + n / 262144, 128 + n / 4096 % 64, 128 + n / 64 % 64, 128 + n % 64]

/-- UTF-8 encoding of a string (`str.encode("utf-8")`). -/
def utf8Bytes (s : String) : List Nat := (s.toList.map utf8Char).flatten

/-- The SHA-256 round constants. -/
def shaK : List Nat :=
  [1116352408, 1899447441, 3049323471, 3921009573, 961987163,
   1508970993, 2453635748, 2870763221, 3624381080, 310598401,
   607225278, 1426881987, 1925078388, 2162078206, 2614888103,
   3248222580, 3835390401, 4022224774, 264347078, 604807628,
   770255983, 1249150122, 1555081692, 1996064986, 2554220882,
   2821834349, 2952996808, 3210313671, 3336571891, 3584528711,
   113926993, 338241895, 666307205, 773529912, 1294757372,
   1396182291, 1695183700, 1986661051, 2177026350, 2456956037,
   2730485921, 2820302411, 3259730800, 3345764771, 3516065817,
   3600352804, 4094571909, 275423344, 430227734, 506948616,
   659060556, 883997877, 958139571, 1322822218, 1537002063,
   1747873779, 1955562222, 2024104815, 2227730452, 2361852424,
   2428436474, 2756734187, 3204031479, 3329325298]

/-- The SHA-256 initial hash value. -/
def shaH0 : List Nat :=
  [1779033703, 3144134277, 1013904242, 2773480762,
   1359893119, 2600822924, 528734635, 1541459225]

/-- A 64-bit big-endian length field, as 8 bytes. -/
def be64 (n : Nat) : List Nat :=
  [n >>> 56 % 256, n >>> 48 % 256, n >>> 40 % 256, n >>> 32 % 256,
   n >>> 24 % 256, n >>> 16 % 256, n >>> 8 % 256, n % 256]

/-- SHA-256 padding: `0x80`, zeros to 56 mod 64, the bit length big-endian. -/
def shaPad (msg : List Nat) : List Nat :=
  let L := msg.length
  let z := (64 + 56 - (L + 1) % 64) % 64
  msg ++ [128] ++ List.replicate z 0 ++ be64 (8 * L)

/-- Split a byte list into 64-byte blocks. -/
def blocks64 (l : List Nat) : List (List Nat) :=
  if l = [] then []
  else if l.length ≤ 64 then [l.take 64]
  else l.take 64 :: blocks64 (l.drop 64)
termination_by l.length
decreasing_by simp only [List.length_drop]; omega

/-- Combine 4 bytes big-endian into one 32-bit word; applied to a 64-byte
block this yields its 16 message-schedule seed words. -/
def words32 : List Nat → List Nat
  | b0 :: b1 :: b2 :: b3 :: rest =>
    (b0 * 16777216 + b1 * 65536 + b2 * 256 + b3) :: words32 rest
  | _ => []

/-- Message-schedule extension: prepend the next word `n` times; the
accumulator is kept most-recent-first. -/
def extendSched : Nat → List Nat → List Nat
  | 0, acc => acc
  | n + 1, acc =>
    let s1 :=
      let x := acc.getD 1 0
      rotr 17 x ^^^ rotr 19 x ^^^ (x >>> 10)
    let s0 :=
      let x := acc.getD 14 0
      rotr 7 x ^^^ rotr 18 x ^^^ (x >>> 3)
    extendSched n (w32 (s1 + acc.getD 6 0 + s0 + acc.getD 15 0) :: acc)

/-- The full 64-word message schedule of one block. -/
def schedule (block : List Nat) : List Nat :=
  (extendSched 48 (words32 block).reverse).reverse

/-- One round of the SHA-256 compression function; the state is the 8-word
working list `[a, b, c, d, e, f, g, h]`. -/
def shaRound (st : List Nat) (kw : Nat × Nat) : List Nat :=
  match st with
  | [a, b, c, d, e, f, g, h] =>
    let S1 := rotr 6 e ^^^ rotr 11 e ^^^ rotr 25 e
    let ch := (e &&& f) ^^^ ((4294967295 - e) &&& g)
    let t1 := w32 (h + S1 + ch + kw.1 + kw.2)
    let S0 := rotr 2 a ^^^ rotr 13 a ^^^ rotr 22 a
    let maj := (a &&& b) ^^^ (a &&& c) ^^^ (b &&& c)
    let t2 := w32 (S0 + maj)
    [w32 (t1 + t2), a, b, c, w32 (d + t1), e, f, g]
  | other => other

/-- Process one 64-byte block: 64 rounds, then add into the running hash. -/
def shaBlock (hv : List Nat) (block : List Nat) : List Nat :=
  let final := (shaK.zip (schedule block)).foldl shaRound hv
  (hv.zip final).map (fun p => w32 (p.1 + p.2))

/-- SHA-256 digest of a byte list, as the 8 hash words. -/
def sha256Words (msg : List Nat) : List Nat :=
  (blocks64 (shaPad msg)).foldl shaBlock shaH0

/-- Eight lowercase hex digits of one 32-bit word. -/
def hex8Chars (n : Nat) : List Char :=
  [hexDigit (n / 268435456 % 16), hexDigit (n / 16777216 % 16),
   hexDigit (n / 1048576 % 16), hexDigit (n / 65536 % 16),
   hexDigit (n / 4096 % 16), hexDigit (n / 256 % 16),
   hexDigit (n / 16 % 16), hexDigit (n % 16)]

/-- The 64 hex characters of a digest. -/
def sha256HexChars (msg : List Nat) : List Char :=
  ((sha256Words msg).map hex8Chars).flatten

/-- `hashlib.sha256(b).hexdigest()`. -/
def sha256Hex (msg : List Nat) : String := String.mk (sha256HexChars msg)

/-- `hashlib.sha256(s.encode("utf-8")).hexdigest()[:16]` — the 16-hex-char
truncation used for revisions and the security-policy version (Python slicing
counts code points, hence the character-level take). -/
def sha16 (s : String) : String :=
  String.mk ((sha256HexChars (utf8Bytes s)).take 16)

/-! ## Bundle server: `fetch_npl_data` and `build_bundle` (`server.py`) -/

/-- The top-level policy document, a Python dict in insertion order. -/
abbrev PolicyDoc := List (String × Json)

/-- A Python `str`-or-`None` value as JSON. -/
def optJson : Option String → Json
  | none => .null
  | some s => .str s

/-- The fixed `roots` list written into the bundle manifest
(server.py:214-221). -/
def manifestRoots : List String :=
  ["catalog", "grants", "contextual_routing", "security_policy",
   "gateway_token", "_bundle_metadata"]

/-- The result of `build_bundle`: the two archive entries (name, bytes), the
ETag and the revision.  The gzip/tar framing around the entries is not
modelled; the entry payloads are exact. -/
structure BuiltBundle where
  dataJson : String
  manifest : String
  etag : String
  revision : String

/-- `build_bundle(policy_data)` (server.py:181-242), with the two
wall-clock-dependent inputs (`built_at` and the module-global
`current_sse_event_id`) made explicit.  The revision is the truncated SHA-256
of the canonical serialization of the document *before* `_bundle_metadata` is
injected. -/
def build_bundle (d : PolicyDoc) (builtAt : String) (sseEventId : Option String) :
    BuiltBundle :=
  let revision := sha16 (dumpsCanonical (.obj d))
  let spData := jgetD (.obj d) "security_policy" (.obj [])
  let spVersion : Option String :=
    if spData.truthy then some (sha16 (dumpsCanonical spData)) else none
  let metadata : Json := .obj
    [("built_at", .str builtAt), ("revision", .str revision),
     ("sse_event_id", optJson sseEventId),
     ("security_policy_version", optJson spVersion)]
  let dataJson := dumpsCanonical (.obj (jset d "_bundle_metadata" metadata))
  let manifest := jser (.obj
    [("revision", .str revision),
     ("roots", .arr (manifestRoots.map .str)),
     ("metadata", .obj [("built_at", .str builtAt)])])
  { dataJson := dataJson, manifest := manifest,
    etag := String.singleton (Char.ofNat 34) ++ revision ++
      String.singleton (Char.ofNat 34),
    revision := revision }

/-- The `catalog` transformation of `fetch_npl_data` (server.py:144-151):
each service entry keeps `enabled`, `enabledTools`, `suspended`, `metadata`
with defaults. -/
def transformCatalog (services : Json) : Json :=
  match services with
  | .obj svs => .obj (svs.map fun kv =>
      (kv.1, .obj [("enabled", jgetD kv.2 "enabled" (.bool false)),
                   ("enabledTools", jgetD kv.2 "enabledTools" (.arr [])),
                   ("suspended", jgetD kv.2 "suspended" (.bool false)),
                   ("metadata", jgetD kv.2 "metadata" (.obj []))]))
  | _ => .obj []

/-- Membership of a subject id in the `revokedSubjects` JSON list
(Python `subject_id not in revoked`). -/
def revokedContains (revoked : Json) (subject : String) : Bool :=
  match revoked with
  | .arr xs => xs.any fun x => match x with
      | .str s => s = subject
      | _ => false
  | _ => false

/-- The `grants` transformation of `fetch_npl_data` (server.py:153-158):
revoked subjects are dropped (fail-closed). -/
def transformGrants (grants revoked : Json) : Json :=
  match grants with
  | .obj gs => .obj (gs.filter fun kv => !revokedContains revoked kv.1)
  | _ => .obj []

/-- The `security_policy` parse of `fetch_npl_data` (server.py:162-169):
`securityPolicy` is a JSON text; falsy → `{}`, parse failure (or a non-string
raising `TypeError`) → `{}`.  `jloads` is the `json.loads` oracle. -/
def parseSecurityPolicy (jloads : String → Option Json) (raw : Json) : Json :=
  if raw.truthy then
    match raw with
    | .str s => (jloads s).getD (.obj [])
    | _ => .obj []
  else .obj []

/-- `fetch_npl_data()` (server.py:112-177) as a function of the authority's
`getPolicyData` response.  `storeFound = false` is the "no PolicyStore
singleton" branch; `tok` is the gateway token handed through. -/
def fetch_npl_data (storeFound : Bool) (pd : Json) (tok : String)
    (jloads : String → Option Json) : PolicyDoc :=
  if !storeFound then
    [("catalog", .obj []), ("grants", .obj []), ("contextual_routing", .obj []),
     ("gateway_token", .str tok)]
  else
    [("catalog", transformCatalog (jgetD pd "services" (.obj []))),
     ("grants", transformGrants (jgetD pd "grants" (.obj []))
        (jgetD pd "revokedSubjects" (.arr []))),
     ("contextual_routing", jgetD pd "contextualRoutes" (.obj [])),
     ("security_policy",
        parseSecurityPolicy jloads (jgetD pd "securityPolicy" (.str ""))),
     ("gateway_token", .str tok)]

/-! ## Bundle server: shared state, `rebuild`, HTTP serving -/

/-- The bundle server's shared mutable state (server.py:51-64). -/
structure BState where
  bundle : Option (List Nat)
  etag : Option String
  revision : Option String
  builtAt : Option Nat
  sseConnected : Bool
  lastSseEventAt : Option Nat
  rebuildCount : Nat
  rebuildErrorCount : Nat
  dataReady : Bool

/-- The state at process start: nothing built yet. -/
def initialBState : BState :=
  { bundle := none, etag := none, revision := none, builtAt := none,
    sseConnected := false, lastSseEventAt := none, rebuildCount := 0,
    rebuildErrorCount := 0, dataReady := false }

/-- `rebuild()` (server.py:245-283) as a state transition.  `fetched` is the
outcome of the `try` block's fetch (`fetch_npl_data` raising is the error
case; `build_bundle` itself is total on parsed data).  `tarGz` packs the two
archive entries into the served tar.gz bytes (compression not modelled),
`now`/`builtAtIso` are the wall clock, `sseId` the module-global
`current_sse_event_id`. -/
def rebuild (tarGz : String → String → List Nat)
    (fetched : Except String PolicyDoc) (now : Nat) (builtAtIso : String)
    (sseId : Option String) (st : BState) : BState :=
  match fetched with
  | .error _ => { st with rebuildErrorCount := st.rebuildErrorCount + 1 }
  | .ok pd =>
    let built := build_bundle pd builtAtIso sseId
    { st with
      bundle := some (tarGz built.dataJson built.manifest),
      etag := some built.etag,
      revision := some built.revision,
      builtAt := some now,
      rebuildCount := st.rebuildCount + 1,
      dataReady := true }

/-- An HTTP response of the bundle server: either `send_error` (status and
message, body is the library's error page) or a regular response with
explicit headers and body bytes. -/
inductive ServeResult where
  | error (status : Nat) (message : String) : ServeResult
  | response (status : Nat) (headers : List (String × String))
      (body : List Nat) : ServeResult

/-- `BundleHandler.serve_bundle` (server.py:370-392): the bundle and etag are
read together under the lock; 503 when absent; 304 on a nonempty
`If-None-Match` equal to the etag; otherwise 200 with the bytes.  (If the
etag were `None`, `send_header` would print it as the string `"None"`.) -/
def serve_bundle (bundle : Option (List Nat)) (etag : Option String)
    (ifNoneMatch : Option String) : ServeResult :=
  match bundle with
  | none => .error 503 "Bundle not ready"
  | some b =>
    let etagStr := match etag with | some e => e | none => "None"
    let etagMatch := match ifNoneMatch with
      | some s => s ≠ "" && etag = some s
      | none => false
    if etagMatch then .response 304 [("ETag", etagStr)] []
    else .response 200
      [("Content-Type", "application/gzip"),
       ("Content-Length", toString b.length),
       ("ETag", etagStr)] b

/-- The `/health` JSON body and status code, as a record. -/
structure HealthResp where
  httpStatus : Nat
  status : String
  revision : Option String
  bundleAgeSeconds : Option Nat
  sseConnected : Bool
  lastSseEventAt : Option Nat
  rebuildCount : Nat
  rebuildErrorCount : Nat
  stalenessThresholdSeconds : Nat

/-- `BundleHandler.serve_health` (server.py:394-428).  `bundle_age` is `None`
until a build happened (Python also treats a zero `current_built_at` as
falsy); the status is `initializing` without a first build, `degraded` when
the age exceeds the staleness threshold, else `healthy`; HTTP 503 only for
`initializing`.  The SSE connection state is reported but never consulted for
the status. -/
def serve_health (stalenessThreshold : Nat) (st : BState) (now : Nat) :
    HealthResp :=
  let bundleAge : Option Nat := match st.builtAt with
    | some t => if t ≠ 0 then some (now - t) else none
    | none => none
  let stale : Bool := match bundleAge with
    | some a => decide (a > stalenessThreshold)
    | none => false
  let status := if !st.dataReady then "initializing"
                else if stale then "degraded" else "healthy"
  { httpStatus := if status = "healthy" || status = "degraded" then 200 else 503,
    status := status,
    revision := st.revision,
    bundleAgeSeconds := bundleAge,
    sseConnected := st.sseConnected,
    lastSseEventAt := st.lastSseEventAt,
    rebuildCount := st.rebuildCount,
    rebuildErrorCount := st.rebuildErrorCount,
    stalenessThresholdSeconds := stalenessThreshold }

/-! ## Key-order equivalence of JSON documents -/

/-- Two parsed JSON values are equal as JSON values when they differ only in
the insertion order of object entries: scalars must match, arrays must match
pointwise, and an object must be a permutation of an object with the same
keys and pointwise-equivalent values. -/
inductive JEquiv : Json → Json → Prop where
  | null : JEquiv .null .null
  | bool : ∀ b, JEquiv (.bool b) (.bool b)
  | num : ∀ n, JEquiv (.num n) (.num n)
  | str : ∀ s, JEquiv (.str s) (.str s)
  | arr : ∀ {xs ys : List Json}, xs.length = ys.length →
      (∀ i (h1 : i < xs.length) (h2 : i < ys.length),
        JEquiv (xs.get ⟨i, h1⟩) (ys.get ⟨i, h2⟩)) →
      JEquiv (.arr xs) (.arr ys)
  | obj : ∀ {kvs mid kvs2 : List (String × Json)}, kvs.length = mid.length →
      (∀ i (h1 : i < kvs.length) (h2 : i < mid.length),
        (kvs.get ⟨i, h1⟩).1 = (mid.get ⟨i, h2⟩).1) →
      (∀ i (h1 : i < kvs.length) (h2 : i < mid.length),
        JEquiv (kvs.get ⟨i, h1⟩).2 (mid.get ⟨i, h2⟩).2) →
      mid.Perm kvs2 →
      JEquiv (.obj kvs) (.obj kvs2)

theorem wfArr_mem {xs : List Json} (h : wfArr xs = true) {x : Json}
    (hx : x ∈ xs) : wfJ x = true := by
  induction xs with
  | nil => cases hx
  | cons a t ih =>
    rw [wfArr, Bool.and_eq_true] at h
    rcases hx with _ | hx
    · exact h.1
    · exact ih h.2 (by assumption)

theorem wfObj_mem {kvs : List (String × Json)} (h : wfObj kvs = true)
    {kv : String × Json} (hx : kv ∈ kvs) : wfJ kv.2 = true := by
  induction kvs with
  | nil => cases hx
  | cons a t ih =>
    obtain ⟨k, v⟩ := a
    rw [wfObj, Bool.and_eq_true] at h
    rcases hx with _ | hx
    · exact h.1
    · exact ih h.2 (by assumption)

theorem canonArr_eq_map (xs : List Json) : canonArr xs = xs.map canon := by
  induction xs with
  | nil => rfl
  | cons a t ih => rw [canonArr, List.map_cons, ih]

theorem canonObj_eq_map (kvs : List (String × Json)) :
    canonObj kvs = kvs.map (fun kv => (kv.1, canon kv.2)) := by
  induction kvs with
  | nil => rfl
  | cons a t ih =>
    obtain ⟨k, v⟩ := a
    rw [canonObj, List.map_cons, ih]

theorem keyLe_trans : ∀ a b c : String × Json,
    keyLe a b → keyLe b c → keyLe a c := by
  intro a b c hab hbc
  simp only [keyLe, decide_eq_true_eq] at *
  exact le_trans hab hbc

theorem keyLe_total : ∀ a b : String × Json, keyLe a b || keyLe b a := by
  intro a b
  simp only [keyLe, Bool.or_eq_true, decide_eq_true_eq]
  exact le_total a.1 b.1

/-- Sorted-by-key entry lists with no duplicate keys are strictly sorted. -/
theorem pairwise_keyLt {l : List (String × Json)}
    (hs : l.Pairwise (fun a b => keyLe a b = true))
    (hn : (l.map Prod.fst).Nodup) :
    l.Pairwise (fun a b : String × Json => a.1 < b.1) := by
  rw [List.Nodup, List.pairwise_map] at hn
  exact (hs.and hn).imp fun h =>
    lt_of_le_of_ne (by simpa [keyLe] using h.1) h.2


/-- Key insight behind the revision stability: recursively sorting keys is
invariant under key-insertion-order equivalence, provided every object has
distinct keys (always true of data parsed from Python dicts). -/
theorem jequiv_canon : ∀ {a b : Json}, JEquiv a b → wfJ a = true →
    wfJ b = true → canon a = canon b := by
  intro a b h
  induction h with
  | null => intro _ _; rfl
  | bool b => intro _ _; rfl
  | num n => intro _ _; rfl
  | str s => intro _ _; rfl
  | arr hlen hpt ih =>
    intro wa wb
    rw [wfJ] at wa wb
    rw [canon, canon, canonArr_eq_map, canonArr_eq_map]
    congr 1
    apply List.ext_get (by simp [hlen])
    intro i h1 h2
    simp only [List.get_map]
    exact ih i _ _ (wfArr_mem wa (List.get_mem _ _ _))
      (wfArr_mem wb (List.get_mem _ _ _))
  | @obj kvs mid kvs2 hlen hkeys hvals hperm ih =>
    intro wa wb
    rw [wfJ, Bool.and_eq_true] at wa wb
    rw [canon, canon]
    congr 1
    have hmidwf : ∀ i (h2 : i < mid.length), wfJ ((mid.get ⟨i, h2⟩).2) = true :=
      fun i h2 => wfObj_mem wb.2 (hperm.subset (List.get_mem _ _ _))
    have heq : canonObj kvs = canonObj mid := by
      rw [canonObj_eq_map, canonObj_eq_map]
      apply List.ext_get (by simp [hlen])
      intro i h1 h2
      simp only [List.get_map]
      have h1' : i < kvs.length := by simpa using h1
      have h2' : i < mid.length := by simpa using h2
      exact Prod.ext (hkeys i h1' h2')
        (ih i h1' h2' (wfObj_mem wa.2 (List.get_mem _ _ _)) (hmidwf i h2'))
    have hperm2 : (canonObj kvs).Perm (canonObj kvs2) := by
      rw [heq, canonObj_eq_map, canonObj_eq_map]
      exact hperm.map _
    have hmsperm : (List.mergeSort (canonObj kvs) keyLe).Perm
        (List.mergeSort (canonObj kvs2) keyLe) :=
      ((List.mergeSort_perm _ _).trans hperm2).trans
        (List.mergeSort_perm _ _).symm
    have hkeys1 : (canonObj kvs).map Prod.fst = kvs.map Prod.fst := by
      rw [canonObj_eq_map, List.map_map]; rfl
    have hkeys2 : (canonObj kvs2).map Prod.fst = kvs2.map Prod.fst := by
      rw [canonObj_eq_map, List.map_map]; rfl
    have hn1 : ((List.mergeSort (canonObj kvs) keyLe).map Prod.fst).Nodup := by
      rw [(( List.mergeSort_perm (canonObj kvs) keyLe).map Prod.fst).nodup_iff,
        hkeys1]
      exact of_decide_eq_true wa.1
    have hn2 : ((List.mergeSort (canonObj kvs2) keyLe).map Prod.fst).Nodup := by
      rw [((List.mergeSort_perm (canonObj kvs2) keyLe).map Prod.fst).nodup_iff,
        hkeys2]
      exact of_decide_eq_true wb.1
    have hlt1 := pairwise_keyLt
      (List.sorted_mergeSort keyLe_trans keyLe_total (canonObj kvs)) hn1
    have hlt2 := pairwise_keyLt
      (List.sorted_mergeSort keyLe_trans keyLe_total (canonObj kvs2)) hn2
    have hlt1' : List.Sorted (fun a b : String × Json => a.1 < b.1)
        (List.mergeSort (canonObj kvs) keyLe) := hlt1
    have hlt2' : List.Sorted (fun a b : String × Json => a.1 < b.1)
        (List.mergeSort (canonObj kvs2) keyLe) := hlt2
    haveI : IsAntisymm (String × Json) (fun a b => a.1 < b.1) :=
      ⟨fun a b h1 h2 => absurd h2 (lt_asymm h1)⟩
    exact List.eq_of_perm_of_sorted hmsperm hlt1' hlt2' 

/-! ## Digest length and `build_bundle` projection lemmas -/

theorem shaRound_length (st : List Nat) (kw : Nat × Nat) :
    (shaRound st kw).length = st.length := by
  unfold shaRound
  split
  · simp_all
  · rfl

theorem foldl_shaRound_length (l : List (Nat × Nat)) (st : List Nat) :
    (l.foldl shaRound st).length = st.length := by
  induction l generalizing st with
  | nil => rfl
  | cons a t ih => rw [List.foldl_cons, ih, shaRound_length]

theorem shaBlock_length (hv block : List Nat) :
    (shaBlock hv block).length = hv.length := by
  unfold shaBlock
  simp [foldl_shaRound_length]

theorem foldl_shaBlock_length (bs : List (List Nat)) (hv : List Nat) :
    (bs.foldl shaBlock hv).length = hv.length := by
  induction bs generalizing hv with
  | nil => rfl
  | cons a t ih => rw [List.foldl_cons, ih, shaBlock_length]

theorem sha256Words_length (msg : List Nat) : (sha256Words msg).length = 8 := by
  unfold sha256Words
  rw [foldl_shaBlock_length]
  rfl

theorem flatten_map_const_length {α : Type} (f : α → List Char) (k : Nat)
    (hf : ∀ x, (f x).length = k) (l : List α) :
    ((l.map f).flatten).length = l.length * k := by
  induction l with
  | nil => simp
  | cons a t ih => simp [hf, ih, Nat.succ_mul, Nat.add_comm]

theorem sha256HexChars_length (msg : List Nat) :
    (sha256HexChars msg).length = 64 := by
  unfold sha256HexChars
  rw [flatten_map_const_length hex8Chars 8 (fun _ => rfl), sha256Words_length]

/-- The revision identifier always has exactly 16 characters. -/
theorem sha16_length (s : String) : (sha16 s).length = 16 := by
  show (String.mk _).length = 16
  show (List.take 16 _).length = 16
  rw [List.length_take, sha256HexChars_length]
  decide

theorem build_bundle_revision (d : PolicyDoc) (iso : String)
    (sse : Option String) :
    (build_bundle d iso sse).revision = sha16 (dumpsCanonical (.obj d)) := rfl

theorem build_bundle_etag (d : PolicyDoc) (iso : String) (sse : Option String) :
    (build_bundle d iso sse).etag =
      String.singleton (Char.ofNat 34) ++ (build_bundle d iso sse).revision ++
        String.singleton (Char.ofNat 34) := rfl

/-- `JEquiv` is reflexive. -/
theorem jequiv_refl : ∀ j : Json, JEquiv j j
  | .null => .null
  | .bool b => .bool b
  | .num n => .num n
  | .str s => .str s
  | .arr xs => .arr rfl (fun i h1 _ =>
      have : sizeOf (xs.get ⟨i, h1⟩) < 1 + sizeOf xs := by
        have := List.sizeOf_lt_of_mem (List.get_mem xs i h1)
        omega
      jequiv_refl (xs.get ⟨i, h1⟩))
  | .obj kvs => .obj rfl (fun _ _ _ => rfl) (fun i h1 _ =>
      have hm : sizeOf (kvs.get ⟨i, h1⟩) < sizeOf kvs :=
        List.sizeOf_lt_of_mem (List.get_mem _ _ _)
      have hsnd : sizeOf ((kvs.get ⟨i, h1⟩).2) < sizeOf (kvs.get ⟨i, h1⟩) := by
        rcases kvs.get ⟨i, h1⟩ with ⟨k, v⟩
        simp
      have : sizeOf ((kvs.get ⟨i, h1⟩).2) < 1 + sizeOf kvs := by omega
      jequiv_refl ((kvs.get ⟨i, h1⟩).2)) (List.Perm.refl _)

/-! ## Claims -/

/-- C2: constraint evaluation is sequential in declaration order and stops at
the first violating constraint: whenever the first constraint is violated
with synthesized detail `d`, the result is a deny carrying `c1`'s message
(its description when nonempty, else the synthesized violation message), and
no later constraint influences the result — the conclusion holds for every
tail, so a `c2` that would pass is never evaluated. -/
theorem constraint_short_circuit (res : String → String → Bool)
    (ra : Option Bool) (c1 : Constraint) (rest : List Constraint) (args : Json)
    (d : String) (h : evalConstraint res c1 args = .viol d) :
    evaluate_constraints res ⟨ra, c1 :: rest⟩ args =
      .done false (violMsg c1.description d) ∧
    ∀ rest2 : List Constraint,
      evaluate_constraints res ⟨ra, c1 :: rest⟩ args =
        evaluate_constraints res ⟨ra, c1 :: rest2⟩ args := by
  constructor
  · show evalLoop res args (c1 :: rest) = _
    rw [evalLoop, h]
  · intro rest2
    show evalLoop res args (c1 :: rest) = evalLoop res args (c1 :: rest2)
    rw [evalLoop, evalLoop, h]

/-- The blocked `send_email` constraint of the spec's scenario 4. -/
def cDeny : Constraint :=
  ⟨"to", "not_contains", ["@external.com"], "External recipients forbidden"⟩

/-- A second constraint that would pass on the same arguments. -/
def cWouldPass : Constraint := ⟨"to", "contains", ["@"], ""⟩

/-- The arguments `{"to": "x@external.com"}`. -/
def argsExt : Json := .obj [("to", .str "x@external.com")]

/-- Witness for C2 at the spec's scenario-4 inputs: `c1` denies, `c2` would
pass, and the decision carries `c1`'s description. -/
theorem constraint_short_circuit_witness :
    evalConstraint (fun _ _ => false) cDeny argsExt =
      .viol (pyQ ++ "to" ++ pyQ ++ " must not contain " ++
        pyReprStrList ["@external.com"]) ∧
    evalConstraint (fun _ _ => false) cWouldPass argsExt = .pass ∧
    evaluate_constraints (fun _ _ => false) ⟨some true, [cDeny, cWouldPass]⟩
        argsExt =
      .done false "Constraint violated: External recipients forbidden" :=
  ⟨rfl, rfl,
    (constraint_short_circuit (fun _ _ => false) (some true) cDeny [cWouldPass]
      argsExt _ rfl).1⟩

/-- A JSON-`null` argument and an absent argument give the same lookup
result to every constraint. -/
theorem evalConstraint_null_arg (res : String → String → Bool)
    (c : Constraint) (p : String) (kvs : List (String × Json))
    (hp : jlookup kvs p = none) :
    evalConstraint res c (.obj ((p, .null) :: kvs)) =
      evalConstraint res c (.obj kvs) := by
  unfold evalConstraint
  dsimp only
  by_cases hq : p = c.paramName
  · rw [show jlookup ((p, Json.null) :: kvs) c.paramName = some .null by
        rw [jlookup, if_pos hq],
      show jlookup kvs c.paramName = none by rw [← hq]; exact hp]
  · rw [show jlookup ((p, Json.null) :: kvs) c.paramName =
        jlookup kvs c.paramName by rw [jlookup, if_neg hq]]

/-- C9: an argument that is present but `null` is treated exactly like an
absent argument: a constraint naming that parameter is skipped (it can
neither pass nor deny), and the whole evaluation coincides with the
evaluation over the arguments without that entry. -/
theorem null_argument_like_absent (res : String → String → Bool)
    (cfg : ToolConfig) (p : String) (kvs : List (String × Json))
    (hp : jlookup kvs p = none) :
    (∀ c : Constraint, c.paramName = p →
       evalConstraint res c (.obj ((p, .null) :: kvs)) = .skip) ∧
    evaluate_constraints res cfg (.obj ((p, .null) :: kvs)) =
      evaluate_constraints res cfg (.obj kvs) := by
  constructor
  · intro c hc
    unfold evalConstraint
    dsimp only
    rw [show jlookup ((p, Json.null) :: kvs) c.paramName = some .null by
      rw [jlookup, if_pos hc.symm]]
  · show evalLoop res _ cfg.constraints = evalLoop res _ cfg.constraints
    induction cfg.constraints with
    | nil => rfl
    | cons c t ih =>
      rw [evalLoop, evalLoop, evalConstraint_null_arg res c p kvs hp]
      cases evalConstraint res c (.obj kvs) with
      | skip => exact ih
      | pass => exact ih
      | viol d => rfl
      | crash => rfl

/-- Witness for C9: a `not_in` constraint on `q` is skipped when the request
supplies `{"q": null}`, exactly as when it supplies `{}`. -/
theorem null_argument_like_absent_witness :
    jlookup [] "q" = none ∧
    evalConstraint (fun _ _ => false) ⟨"q", "not_in", ["x"], ""⟩
      (.obj [("q", .null)]) = .skip ∧
    evaluate_constraints (fun _ _ => false)
        ⟨some false, [⟨"q", "not_in", ["x"], ""⟩]⟩ (.obj [("q", .null)]) =
      evaluate_constraints (fun _ _ => false)
        ⟨some false, [⟨"q", "not_in", ["x"], ""⟩]⟩ (.obj []) :=
  ⟨rfl,
    (null_argument_like_absent (fun _ _ => false)
      ⟨some false, [⟨"q", "not_in", ["x"], ""⟩]⟩ "q" [] rfl).1 _ rfl,
    (null_argument_like_absent (fun _ _ => false)
      ⟨some false, [⟨"q", "not_in", ["x"], ""⟩]⟩ "q" [] rfl).2⟩

/-- C5: a failed rebuild cycle leaves the served state (bundle bytes, etag,
revision, builtAt) exactly as it was and only increments the error counter; a
successful cycle replaces all four fields together and increments the rebuild
counter. -/
theorem rebuild_last_good (tarGz : String → String → List Nat) (now : Nat)
    (iso : String) (sse : Option String) (st : BState) :
    (∀ e, rebuild tarGz (.error e) now iso sse st =
       { st with rebuildErrorCount := st.rebuildErrorCount + 1 }) ∧
    (∀ pd, rebuild tarGz (.ok pd) now iso sse st =
       { st with
         bundle := some (tarGz (build_bundle pd iso sse).dataJson
           (build_bundle pd iso sse).manifest),
         etag := some (build_bundle pd iso sse).etag,
         revision := some (build_bundle pd iso sse).revision,
         builtAt := some now,
         rebuildCount := st.rebuildCount + 1,
         dataReady := true }) :=
  ⟨fun _ => rfl, fun _ => rfl⟩

/-- Counterexample to C7 as stated: a POST to `/evaluate` whose nonempty body
is not valid JSON does not get a 400 response — `json.loads` at
evaluator.py:262 is outside any `try`, so the handler raises and the
connection is closed with no response at all. -/
theorem invalid_json_body_counterexample :
    do_POST [] (.error "down") (fun _ _ => false) (fun _ => none)
      ⟨"/evaluate", 5, none⟩ = .crash :=
  rfl

/-- C7 (amended): an empty request body (`Content-Length: 0`) yields 400, a
POST to any other path yields 404, but a nonempty body that is not valid
JSON raises an uncaught exception — no response is sent. -/
theorem post_error_statuses (cache : List (String × SvcEntry))
    (fw : Except String Json) (res : String → String → Bool)
    (pj : String → Option Json) (req : PostReq) :
    (req.path ≠ "/evaluate" →
       do_POST cache fw res pj req =
         .reply 404 (.obj [("error", .str "Not found")])) ∧
    (req.path = "/evaluate" → req.contentLength = 0 →
       do_POST cache fw res pj req =
         .reply 400 (.obj [("error", .str "Empty body")])) ∧
    (req.path = "/evaluate" → req.contentLength ≠ 0 → req.body = none →
       do_POST cache fw res pj req = .crash) := by
  refine ⟨?_, ?_, ?_⟩
  · intro h
    unfold do_POST
    rw [if_pos h]
  · intro h hl
    unfold do_POST
    rw [if_neg (by simp [h]), if_pos hl]
  · intro h hl hb
    unfold do_POST
    rw [if_neg (by simp [h]), if_neg hl, hb]

/-- Witness for the amended C7 at three concrete requests. -/
theorem post_error_statuses_witness :
    do_POST [] (.error "down") (fun _ _ => false) (fun _ => none)
      ⟨"/other", 3, some (.obj [])⟩ =
        .reply 404 (.obj [("error", .str "Not found")]) ∧
    do_POST [] (.error "down") (fun _ _ => false) (fun _ => none)
      ⟨"/evaluate", 0, none⟩ =
        .reply 400 (.obj [("error", .str "Empty body")]) ∧
    do_POST [] (.error "down") (fun _ _ => false) (fun _ => none)
      ⟨"/evaluate", 7, none⟩ = .crash :=
  ⟨(post_error_statuses [] (.error "down") (fun _ _ => false) (fun _ => none)
      ⟨"/other", 3, some (.obj [])⟩).1 (by decide),
   (post_error_statuses [] (.error "down") (fun _ _ => false) (fun _ => none)
      ⟨"/evaluate", 0, none⟩).2.1 rfl rfl,
   (post_error_statuses [] (.error "down") (fun _ _ => false) (fun _ => none)
      ⟨"/evaluate", 7, none⟩).2.2 rfl (by decide) rfl⟩

/-- C10: a cached tool config whose record lacks `requiresApproval` is
treated as requiring approval: when all constraints pass, the handler
forwards to the authority (returning its verdict, or a fail-closed deny on a
forward failure) instead of replying `allow` on its own. -/
theorem missing_requiresApproval_forwards (cache : List (String × SvcEntry))
    (fw : Except String Json) (res : String → String → Bool)
    (pj : String → Option Json) (req : PostReq)
    (bodyKvs : List (String × Json)) (s t : String) (entry : SvcEntry)
    (cfg : ToolConfig) (msg : String)
    (hpath : req.path = "/evaluate") (hlen : req.contentLength ≠ 0)
    (hbody : req.body = some (.obj bodyKvs))
    (hsn : jlookup bodyKvs "serviceName" = some (.str s)) (hs : s ≠ "")
    (htn : jlookup bodyKvs "toolName" = some (.str t))
    (hsvc : alistGet cache s = some entry)
    (hcfg : alistGet entry.toolConfigs t = some cfg)
    (hra : cfg.requiresApproval = none)
    (hec : evaluate_constraints res cfg
      (parsedArgs pj ((jlookup bodyKvs "arguments").getD (.str "\x7b\x7d"))) =
        .done true msg) :
    do_POST cache fw res pj req = forwardReply fw := by
  unfold do_POST
  rw [if_neg (by simp [hpath]), if_neg hlen, hbody]
  simp only [hsn, htn, Option.getD_some]
  rw [if_neg (by simp [Json.truthy, hs])]
  simp only [hsvc, hcfg, hec, hra]
  rfl

/-- Witness for C10: a config without `requiresApproval` and a passing
constraint set forwards to the authority. -/
theorem missing_requiresApproval_forwards_witness :
    do_POST [("gmail", ⟨"id-1", [("send_email", ⟨none, []⟩)]⟩)]
      (.ok (decisionObj "allow" "r-1" "approved"))
      (fun _ _ => false) (fun _ => some (.obj []))
      ⟨"/evaluate", 42,
        some (.obj [("serviceName", .str "gmail"), ("toolName", .str "send_email"),
                    ("arguments", .str "\x7b\x7d")])⟩ =
      .reply 200 (decisionObj "allow" "r-1" "approved") :=
  missing_requiresApproval_forwards _ _ _ _ _ _ "gmail" "send_email" _ _
    "Constraints satisfied" rfl (by decide) rfl rfl (by decide) rfl rfl rfl rfl
    rfl

/-- Extracting the `decision` field of a `{decision, requestId, message}`
reply. -/
theorem jgetD_decisionObj (dec rid msg : String) :
    jgetD (decisionObj dec rid msg) "decision" .null = .str dec := rfl

/-- A forwarded reply carrying decision `allow` can only be the authority's
own `ok` payload (the fail-closed branch denies). -/
theorem forwardReply_allow (fw : Except String Json) (status : Nat) (b : Json)
    (hreply : forwardReply fw = .reply status b)
    (hallow : jgetD b "decision" .null = .str "allow") : fw = .ok b := by
  cases fw with
  | ok j => cases hreply; rfl
  | error e =>
    cases hreply
    have h2 : ("deny" : String) = "allow" :=
      Json.str.inj (show Json.str "deny" = Json.str "allow" from hallow)
    exact absurd h2 (by decide)

/-- C1: the evaluator replies `allow` only if (a) the tool's cached config
exists, every constraint evaluated without violation and the config has
`requiresApproval = false` (the fixed auto-allow reply), or (b) the reply is
the authority's own forwarded verdict; and in every other resolvable case the
decision is `deny`: a service absent from the cache denies, a constraint
violation denies with the violation message, and a failed/unreachable
authority forward denies fail-closed (both where the forward is reached: a
missing tool config, and a passing tool that requires approval). -/
theorem allow_only_constraints_or_authority
    (cache : List (String × SvcEntry)) (fw : Except String Json)
    (res : String → String → Bool) (pj : String → Option Json)
    (req : PostReq) :
    (∀ (status : Nat) (b : Json),
      do_POST cache fw res pj req = .reply status b →
      jgetD b "decision" .null = .str "allow" →
      (b = decisionObj "allow" "" "Constraints satisfied" ∧
        ∃ bodyKvs s t entry cfg msg,
          req.body = some (.obj bodyKvs) ∧
          (jlookup bodyKvs "serviceName").getD (.str "") = .str s ∧
          alistGet cache s = some entry ∧
          (jlookup bodyKvs "toolName").getD (.str "") = .str t ∧
          alistGet entry.toolConfigs t = some cfg ∧
          evaluate_constraints res cfg
            (parsedArgs pj ((jlookup bodyKvs "arguments").getD
              (.str "\x7b\x7d"))) = .done true msg ∧
          cfg.requiresApproval = some false) ∨
      fw = .ok b) ∧
    (∀ (bodyKvs : List (String × Json)) (s : String),
      req.path = "/evaluate" → req.contentLength ≠ 0 →
      req.body = some (.obj bodyKvs) →
      (jlookup bodyKvs "serviceName").getD (.str "") = .str s → s ≠ "" →
      alistGet cache s = none →
      do_POST cache fw res pj req =
        .reply 200 (decisionObj "deny" ""
          ("No governance instance for service " ++ pyQ ++ s ++ pyQ))) ∧
    (∀ (bodyKvs : List (String × Json)) (s t : String) (entry : SvcEntry)
        (cfg : ToolConfig) (msg : String),
      req.path = "/evaluate" → req.contentLength ≠ 0 →
      req.body = some (.obj bodyKvs) →
      (jlookup bodyKvs "serviceName").getD (.str "") = .str s → s ≠ "" →
      alistGet cache s = some entry →
      (jlookup bodyKvs "toolName").getD (.str "") = .str t →
      alistGet entry.toolConfigs t = some cfg →
      evaluate_constraints res cfg
        (parsedArgs pj ((jlookup bodyKvs "arguments").getD
          (.str "\x7b\x7d"))) = .done false msg →
      do_POST cache fw res pj req = .reply 200 (decisionObj "deny" "" msg)) ∧
    (∀ e : String, fw = .error e →
      forwardReply fw = .reply 200 (decisionObj "deny" ""
        ("Governance evaluation failed: " ++ e)) ∧
      (∀ (bodyKvs : List (String × Json)) (s t : String) (entry : SvcEntry),
        req.path = "/evaluate" → req.contentLength ≠ 0 →
        req.body = some (.obj bodyKvs) →
        (jlookup bodyKvs "serviceName").getD (.str "") = .str s → s ≠ "" →
        alistGet cache s = some entry →
        (jlookup bodyKvs "toolName").getD (.str "") = .str t →
        alistGet entry.toolConfigs t = none →
        do_POST cache fw res pj req = .reply 200 (decisionObj "deny" ""
          ("Governance evaluation failed: " ++ e))) ∧
      (∀ (bodyKvs : List (String × Json)) (s t : String) (entry : SvcEntry)
          (cfg : ToolConfig) (msg : String),
        req.path = "/evaluate" → req.contentLength ≠ 0 →
        req.body = some (.obj bodyKvs) →
        (jlookup bodyKvs "serviceName").getD (.str "") = .str s → s ≠ "" →
        alistGet cache s = some entry →
        (jlookup bodyKvs "toolName").getD (.str "") = .str t →
        alistGet entry.toolConfigs t = some cfg →
        evaluate_constraints res cfg
          (parsedArgs pj ((jlookup bodyKvs "arguments").getD
            (.str "\x7b\x7d"))) = .done true msg →
        cfg.requiresApproval.getD true = true →
        do_POST cache fw res pj req = .reply 200 (decisionObj "deny" ""
          ("Governance evaluation failed: " ++ e)))) := by
  refine ⟨?_, ?_, ?_, ?_⟩
  · intro status b hreply hallow
    obtain ⟨path, len, body⟩ := req
    unfold do_POST at hreply
    dsimp only at hreply
    split at hreply
    · cases hreply
      exact Json.noConfusion (show Json.null = Json.str "allow" from hallow)
    split at hreply
    · cases hreply
      exact Json.noConfusion (show Json.null = Json.str "allow" from hallow)
    cases body with
    | none => exact nomatch hreply
    | some bodyJ =>
    cases bodyJ with
    | null => exact nomatch hreply
    | bool x => exact nomatch hreply
    | num x => exact nomatch hreply
    | str x => exact nomatch hreply
    | arr x => exact nomatch hreply
    | obj bodyKvs =>
    dsimp only at hreply
    split at hreply
    · cases hreply
      exact Json.noConfusion (show Json.null = Json.str "allow" from hallow)
    cases hsvn : (jlookup bodyKvs "serviceName").getD (.str "") with
    | arr xs => rw [hsvn] at hreply; exact nomatch hreply
    | obj kvs => rw [hsvn] at hreply; exact nomatch hreply
    | null =>
      rw [hsvn] at hreply
      dsimp only at hreply
      cases hreply
      have h2 : ("deny" : String) = "allow" :=
        Json.str.inj (show Json.str "deny" = Json.str "allow" from hallow)
      exact absurd h2 (by decide)
    | bool x =>
      rw [hsvn] at hreply
      dsimp only at hreply
      cases hreply
      have h2 : ("deny" : String) = "allow" :=
        Json.str.inj (show Json.str "deny" = Json.str "allow" from hallow)
      exact absurd h2 (by decide)
    | num x =>
      rw [hsvn] at hreply
      dsimp only at hreply
      cases hreply
      have h2 : ("deny" : String) = "allow" :=
        Json.str.inj (show Json.str "deny" = Json.str "allow" from hallow)
      exact absurd h2 (by decide)
    | str s =>
    rw [hsvn] at hreply
    dsimp only at hreply
    cases hsvc : alistGet cache s with
    | none =>
      rw [hsvc] at hreply
      cases hreply
      have h2 : ("deny" : String) = "allow" :=
        Json.str.inj (show Json.str "deny" = Json.str "allow" from hallow)
      exact absurd h2 (by decide)
    | some entry =>
    rw [hsvc] at hreply
    dsimp only at hreply
    cases htn : (jlookup bodyKvs "toolName").getD (.str "") with
    | arr xs => rw [htn] at hreply; exact nomatch hreply
    | obj kvs => rw [htn] at hreply; exact nomatch hreply
    | null =>
      rw [htn] at hreply
      dsimp only at hreply
      exact Or.inr (forwardReply_allow fw status b hreply hallow)
    | bool x =>
      rw [htn] at hreply
      dsimp only at hreply
      exact Or.inr (forwardReply_allow fw status b hreply hallow)
    | num x =>
      rw [htn] at hreply
      dsimp only at hreply
      exact Or.inr (forwardReply_allow fw status b hreply hallow)
    | str t =>
    rw [htn] at hreply
    dsimp only at hreply
    cases hcfg : alistGet entry.toolConfigs t with
    | none =>
      rw [hcfg] at hreply
      dsimp only at hreply
      exact Or.inr (forwardReply_allow fw status b hreply hallow)
    | some cfg =>
    rw [hcfg] at hreply
    dsimp only at hreply
    cases hec : evaluate_constraints res cfg
        (parsedArgs pj ((jlookup bodyKvs "arguments").getD (.str "\x7b\x7d"))) with
    | crash => rw [hec] at hreply; exact nomatch hreply
    | done passed msg =>
    rw [hec] at hreply
    dsimp only at hreply
    cases passed with
    | false =>
      cases hreply
      have h2 : ("deny" : String) = "allow" :=
        Json.str.inj (show Json.str "deny" = Json.str "allow" from hallow)
      exact absurd h2 (by decide)
    | true =>
    cases hra : cfg.requiresApproval with
    | none =>
      rw [hra] at hreply
      exact Or.inr (forwardReply_allow fw status b hreply hallow)
    | some rav =>
    rw [hra] at hreply
    cases rav with
    | true =>
      exact Or.inr (forwardReply_allow fw status b hreply hallow)
    | false =>
      cases hreply
      exact Or.inl ⟨rfl, bodyKvs, s, t, entry, cfg, msg, rfl, hsvn, hsvc, htn,
        hcfg, hec, hra⟩
  · intro bodyKvs s hpath hlen hbody hsn hs hmiss
    unfold do_POST
    rw [if_neg (by simp [hpath]), if_neg hlen, hbody]
    simp only [hsn]
    rw [if_neg (by simp [Json.truthy, hs])]
    simp only [hmiss]
    rfl
  · intro bodyKvs s t entry cfg msg hpath hlen hbody hsn hs hsvc htn hcfg hec
    unfold do_POST
    rw [if_neg (by simp [hpath]), if_neg hlen, hbody]
    simp only [hsn, htn]
    rw [if_neg (by simp [Json.truthy, hs])]
    simp only [hsvc, hcfg, hec]
    rfl
  · intro e hfw
    refine ⟨by rw [hfw]; rfl, ?_, ?_⟩
    · intro bodyKvs s t entry hpath hlen hbody hsn hs hsvc htn hnocfg
      unfold do_POST
      rw [if_neg (by simp [hpath]), if_neg hlen, hbody]
      simp only [hsn, htn]
      rw [if_neg (by simp [Json.truthy, hs])]
      simp only [hsvc, hnocfg]
      rw [hfw]
      rfl
    · intro bodyKvs s t entry cfg msg hpath hlen hbody hsn hs hsvc htn hcfg
        hec hra
      unfold do_POST
      rw [if_neg (by simp [hpath]), if_neg hlen, hbody]
      simp only [hsn, htn]
      rw [if_neg (by simp [Json.truthy, hs])]
      simp only [hsvc, hcfg, hec]
      rw [hra, hfw]
      rfl

/-- The cache for the C1 witness: `gmail.send_email`, auto-allow config with
the external-recipient constraint. -/
def cacheW : List (String × SvcEntry) :=
  [("gmail", ⟨"id-1", [("send_email", ⟨some false, [cDeny]⟩)]⟩)]

/-- The C1 witness request for the allow case: internal recipient, arguments
passed as an already-parsed mapping. -/
def reqW : PostReq :=
  ⟨"/evaluate", 42,
    some (.obj [("serviceName", .str "gmail"), ("toolName", .str "send_email"),
                ("arguments", .obj [("to", .str "x@acme.com")])])⟩

/-- The C1 witness request for the cache-miss deny: unknown service. -/
def reqMiss : PostReq :=
  ⟨"/evaluate", 9,
    some (.obj [("serviceName", .str "unknown"), ("toolName", .str "x"),
                ("arguments", .obj [])])⟩

/-- The C1 witness request for the constraint-violation deny: external
recipient. -/
def reqViol : PostReq :=
  ⟨"/evaluate", 9,
    some (.obj [("serviceName", .str "gmail"), ("toolName", .str "send_email"),
                ("arguments", .obj [("to", .str "x@external.com")])])⟩

/-- The C1 witness request for the failed-forward deny: a tool without a
cached config, so the handler must forward to the unreachable authority. -/
def reqNoTool : PostReq :=
  ⟨"/evaluate", 9,
    some (.obj [("serviceName", .str "gmail"), ("toolName", .str "list_labels"),
                ("arguments", .obj [])])⟩

/-- Witness for C1: with the authority unreachable, the four concrete
requests exercise the allow case (the spec's scenario 5) and all three deny
cases — unknown service, constraint violation, failed forward. -/
theorem allow_only_constraints_or_authority_witness :
    (do_POST cacheW (.error "authority unreachable") (fun _ _ => false)
        (fun _ => none) reqW =
      .reply 200 (decisionObj "allow" "" "Constraints satisfied") ∧
     ((decisionObj "allow" "" "Constraints satisfied" =
         decisionObj "allow" "" "Constraints satisfied" ∧
       ∃ bodyKvs s t entry cfg msg,
         reqW.body = some (.obj bodyKvs) ∧
         (jlookup bodyKvs "serviceName").getD (.str "") = .str s ∧
         alistGet cacheW s = some entry ∧
         (jlookup bodyKvs "toolName").getD (.str "") = .str t ∧
         alistGet entry.toolConfigs t = some cfg ∧
         evaluate_constraints (fun _ _ => false) cfg
           (parsedArgs (fun _ => none) ((jlookup bodyKvs "arguments").getD
             (.str "\x7b\x7d"))) = .done true msg ∧
         cfg.requiresApproval = some false) ∨
       Except.error "authority unreachable" =
         Except.ok (decisionObj "allow" "" "Constraints satisfied"))) ∧
    do_POST cacheW (.error "authority unreachable") (fun _ _ => false)
        (fun _ => none) reqMiss =
      .reply 200 (decisionObj "deny" ""
        ("No governance instance for service " ++ pyQ ++ "unknown" ++ pyQ)) ∧
    do_POST cacheW (.error "authority unreachable") (fun _ _ => false)
        (fun _ => none) reqViol =
      .reply 200 (decisionObj "deny" ""
        "Constraint violated: External recipients forbidden") ∧
    do_POST cacheW (.error "authority unreachable") (fun _ _ => false)
        (fun _ => none) reqNoTool =
      .reply 200 (decisionObj "deny" ""
        "Governance evaluation failed: authority unreachable") :=
  ⟨⟨rfl,
    (allow_only_constraints_or_authority cacheW (.error "authority unreachable")
        (fun _ _ => false) (fun _ => none) reqW).1 200
      (decisionObj "allow" "" "Constraints satisfied") rfl rfl⟩,
   (allow_only_constraints_or_authority cacheW (.error "authority unreachable")
        (fun _ _ => false) (fun _ => none) reqMiss).2.1
     [("serviceName", .str "unknown"), ("toolName", .str "x"),
      ("arguments", .obj [])] "unknown" rfl (by decide) rfl rfl (by decide)
     rfl,
   (allow_only_constraints_or_authority cacheW (.error "authority unreachable")
        (fun _ _ => false) (fun _ => none) reqViol).2.2.1
     [("serviceName", .str "gmail"), ("toolName", .str "send_email"),
      ("arguments", .obj [("to", .str "x@external.com")])] "gmail"
     "send_email" ⟨"id-1", [("send_email", ⟨some false, [cDeny]⟩)]⟩
     ⟨some false, [cDeny]⟩
     "Constraint violated: External recipients forbidden" rfl (by decide) rfl
     rfl (by decide) rfl rfl rfl rfl,
   ((allow_only_constraints_or_authority cacheW
        (.error "authority unreachable") (fun _ _ => false) (fun _ => none)
        reqNoTool).2.2.2 "authority unreachable" rfl).2.1
     [("serviceName", .str "gmail"), ("toolName", .str "list_labels"),
      ("arguments", .obj [])] "gmail" "list_labels"
     ⟨"id-1", [("send_email", ⟨some false, [cDeny]⟩)]⟩ rfl (by decide) rfl rfl
     (by decide) rfl rfl rfl⟩

/-- The revision wrapped in double quotes (the ETag shape of server.py:241). -/
def quoteStr (r : String) : String :=
  String.singleton (Char.ofNat 34) ++ r ++ String.singleton (Char.ofNat 34)

theorem quoteStr_ne_empty (r : String) : quoteStr r ≠ "" := by
  intro h
  have hl : (quoteStr r).length = 0 := by rw [h]; rfl
  rw [quoteStr] at hl
  simp [String.length_append] at hl

/-- The coherence invariant of the served state: either nothing was built
yet, or the stored ETag is exactly the stored revision in double quotes. -/
def etagRevInv (st : BState) : Prop :=
  (st.bundle = none ∧ st.etag = none ∧ st.revision = none) ∨
  (∃ bytes r, st.bundle = some bytes ∧ st.revision = some r ∧
    st.etag = some (quoteStr r))

/-- C4: the bundle endpoint serves 503 "Bundle not ready" before the first
build; 304 with the ETag header and an empty body when `If-None-Match`
exactly equals the current ETag; otherwise 200 with `Content-Type:
application/gzip`, `Content-Length` equal to the bundle byte length, and an
`ETag` equal to the current revision in double quotes — the coherence holds
in the initial state and is preserved by every rebuild. -/
theorem serve_bundle_conditional_get :
    etagRevInv initialBState ∧
    (∀ tarGz fetched now iso sse st, etagRevInv st →
       etagRevInv (rebuild tarGz fetched now iso sse st)) ∧
    (∀ st, etagRevInv st →
      (st.bundle = none →
         ∀ inm, serve_bundle st.bundle st.etag inm =
           .error 503 "Bundle not ready") ∧
      (∀ bytes r, st.bundle = some bytes → st.revision = some r →
         st.etag = some (quoteStr r) ∧
         serve_bundle st.bundle st.etag (some (quoteStr r)) =
           .response 304 [("ETag", quoteStr r)] [] ∧
         (∀ inm, inm ≠ some (quoteStr r) →
            serve_bundle st.bundle st.etag inm =
              .response 200 [("Content-Type", "application/gzip"),
                ("Content-Length", toString bytes.length),
                ("ETag", quoteStr r)] bytes))) := by
  refine ⟨Or.inl ⟨rfl, rfl, rfl⟩, ?_, ?_⟩
  · intro tarGz fetched now iso sse st hinv
    cases fetched with
    | error e => exact hinv
    | ok pd => exact Or.inr ⟨_, _, rfl, rfl, rfl⟩
  · intro st hinv
    constructor
    · intro h inm
      rw [serve_bundle.eq_def, h]
    · intro bytes r hb hr
      have hetag : st.etag = some (quoteStr r) := by
        rcases hinv with ⟨hn, _, _⟩ | ⟨b2, r2, hb2, hr2, he2⟩
        · rw [hn] at hb; exact nomatch hb
        · rw [hr] at hr2
          cases hr2
          exact he2
      refine ⟨hetag, ?_, ?_⟩
      · rw [serve_bundle.eq_def, hb, hetag]
        simp [quoteStr_ne_empty]
      · intro inm hne
        rw [serve_bundle.eq_def, hb, hetag]
        cases inm with
        | none => simp
        | some s =>
          have hsne : quoteStr r ≠ s := fun h => hne (by rw [h])
          simp [hsne]

/-- A concrete post-rebuild state for the C4 witness. -/
def c4state : BState :=
  { bundle := some [1, 2, 3], etag := some (quoteStr "abcd"),
    revision := some "abcd", builtAt := some 5, sseConnected := true,
    lastSseEventAt := none, rebuildCount := 1, rebuildErrorCount := 0,
    dataReady := true }

/-- Witness for C4 on a concrete post-rebuild state: all three response
shapes at explicit inputs. -/
theorem serve_bundle_conditional_get_witness :
    serve_bundle initialBState.bundle initialBState.etag (some "x") =
      .error 503 "Bundle not ready" ∧
    serve_bundle (some [1, 2, 3]) (some (quoteStr "abcd"))
        (some (quoteStr "abcd")) =
      .response 304 [("ETag", quoteStr "abcd")] [] ∧
    serve_bundle (some [1, 2, 3]) (some (quoteStr "abcd")) none =
      .response 200 [("Content-Type", "application/gzip"),
        ("Content-Length", "3"), ("ETag", quoteStr "abcd")] [1, 2, 3] := by
  have hstate : etagRevInv c4state := Or.inr ⟨[1, 2, 3], "abcd", rfl, rfl, rfl⟩
  have h := (serve_bundle_conditional_get.2.2 c4state hstate).2
    [1, 2, 3] "abcd" rfl rfl
  exact ⟨(serve_bundle_conditional_get.2.2 initialBState
      (serve_bundle_conditional_get.1)).1 rfl (some "x"),
    h.2.1, h.2.2 none (by simp)⟩

/-- A state whose event stream has been disconnected across a full
reconciliation interval (last event at 0, now 100, interval 30) while the
bundle itself is fresh (built at 90, age 10 ≤ threshold 60). -/
def c6state : BState :=
  { bundle := some [0], etag := some (quoteStr "r"), revision := some "r",
    builtAt := some 90, sseConnected := false, lastSseEventAt := some 0,
    rebuildCount := 3, rebuildErrorCount := 0, dataReady := true }

/-- Counterexample to C6 as stated: with the event stream disconnected for
far longer than the reconciliation interval but a fresh bundle,
`serve_health` reports `healthy` (200), not `degraded` — the status
computation never consults `sse_connected` or `last_sse_event_at`
(server.py:399-403). -/
theorem serve_health_ignores_sse_counterexample :
    (serve_health 60 c6state 100).status = "healthy" ∧
    (serve_health 60 c6state 100).httpStatus = 200 ∧
    c6state.sseConnected = false ∧
    100 - c6state.lastSseEventAt.getD 0 > 30 ∧
    (serve_health 60 c6state 100).bundleAgeSeconds = some 10 ∧
    (serve_health 60 c6state 100).status ≠ "degraded" :=
  ⟨rfl, rfl, rfl, by decide, rfl, by decide⟩

/-- C6 (amended): `/health` reports `initializing` with HTTP 503 exactly when
no bundle has ever been built; once built, the status is `degraded` exactly
when the bundle age exceeds the staleness threshold and `healthy` otherwise,
both with HTTP 200 — the state of the event stream is reported in the body
but never affects the status. -/
theorem serve_health_status (threshold : Nat) (st : BState) (now : Nat) :
    ((serve_health threshold st now).status = "initializing" ↔
      st.dataReady = false) ∧
    ((serve_health threshold st now).httpStatus = 503 ↔
      st.dataReady = false) ∧
    (∀ t, st.dataReady = true → st.builtAt = some t → t ≠ 0 →
      ((serve_health threshold st now).status = "degraded" ↔
        now - t > threshold) ∧
      ((serve_health threshold st now).status = "healthy" ↔
        ¬ now - t > threshold) ∧
      (serve_health threshold st now).httpStatus = 200) := by
  cases hready : st.dataReady with
  | false =>
    refine ⟨by simp [serve_health, hready], by simp [serve_health, hready], ?_⟩
    intro t ht
    exact nomatch ht
  | true =>
    cases hba : st.builtAt with
    | none =>
      refine ⟨by simp [serve_health, hready, hba],
        by simp [serve_health, hready, hba], ?_⟩
      intro t _ hsome
      exact nomatch hsome
    | some t0 =>
      by_cases h0 : t0 = 0
      · subst h0
        refine ⟨by simp [serve_health, hready, hba],
          by simp [serve_health, hready, hba], ?_⟩
        intro t _ hsome ht
        cases hsome
        exact absurd rfl ht
      · by_cases hst : now - t0 > threshold
        · refine ⟨by simp [serve_health, hready, hba, h0, hst],
            by simp [serve_health, hready, hba, h0, hst], ?_⟩
          intro t _ hsome ht
          cases hsome
          refine ⟨by simp [serve_health, hready, hba, h0, hst], ?_,
            by simp [serve_health, hready, hba, h0, hst]⟩
          simp [serve_health, hready, hba, h0, hst]
        · refine ⟨by simp [serve_health, hready, hba, h0, hst],
            by simp [serve_health, hready, hba, h0, hst], ?_⟩
          intro t _ hsome ht
          cases hsome
          refine ⟨by simp [serve_health, hready, hba, h0, hst], ?_,
            by simp [serve_health, hready, hba, h0, hst]⟩
          simp [serve_health, hready, hba, h0, hst]

/-- Witness for the amended C6 at a concrete built state (age 10, threshold
60): healthy with HTTP 200. -/
theorem serve_health_status_witness :
    ((serve_health 60 c6state 100).status = "healthy" ↔ ¬ 100 - 90 > 60) ∧
    (serve_health 60 c6state 100).httpStatus = 200 :=
  ⟨((serve_health_status 60 c6state 100).2.2 90 rfl rfl (by decide)).2.1,
   ((serve_health_status 60 c6state 100).2.2 90 rfl rfl (by decide)).2.2⟩

/-- Code-point lexicographic comparison of strings — the order Python's
`sorted` puts `str` keys in. -/
def cpLt : List Char → List Char → Bool
  | [], [] => false
  | [], _ :: _ => true
  | _ :: _, [] => false
  | a :: as, b :: bs =>
    if a.toNat < b.toNat then true
    else if b.toNat < a.toNat then false
    else cpLt as bs

/-- Non-strict code-point lexicographic order on strings. -/
def cpLe (a b : String) : Bool := a = b || cpLt a.toList b.toList

/-- A concrete `getPolicyData` response for the C8 counterexample. -/
def c8input : Json :=
  .obj [("services", .obj []), ("grants", .obj []),
        ("revokedSubjects", .arr []), ("contextualRoutes", .obj []),
        ("securityPolicy", .str "")]

/-- Counterexample to C8 as stated: the top-level roots of the built document
are `catalog, grants, contextual_routing, security_policy, gateway_token`
(+ `_bundle_metadata`) — not `catalog, access_rules, revoked_subjects,
governance_instances` — and the manifest's `roots` field is in fixed
declaration order, which is not lexical (`grants` follows
`contextual_routing`, `_bundle_metadata` comes last). -/
theorem bundle_roots_counterexample :
    (fetch_npl_data true c8input "tok" (fun _ => none)).map Prod.fst =
      ["catalog", "grants", "contextual_routing", "security_policy",
       "gateway_token"] ∧
    "access_rules" ∉ (fetch_npl_data true c8input "tok" (fun _ => none)).map
      Prod.fst ∧
    manifestRoots = ["catalog", "grants", "contextual_routing",
      "security_policy", "gateway_token", "_bundle_metadata"] ∧
    ¬ List.Pairwise (fun a b : String => cpLe a b = true) manifestRoots :=
  ⟨rfl, by decide, rfl, by decide⟩

/-- C8 (amended): the policy document built from a found store has exactly
the top-level roots `catalog, grants, contextual_routing, security_policy,
gateway_token` plus the injected `_bundle_metadata`; when the store singleton
is absent, `security_policy` is missing from the document.  The manifest's
`roots` field is the fixed declaration-order list (a permutation of the
found-branch document's keys, not lexically sorted). -/
theorem bundle_roots (pd : Json) (tok : String)
    (jloads : String → Option Json) (meta : Json) :
    (fetch_npl_data true pd tok jloads).map Prod.fst =
      ["catalog", "grants", "contextual_routing", "security_policy",
       "gateway_token"] ∧
    (jset (fetch_npl_data true pd tok jloads) "_bundle_metadata" meta).map
        Prod.fst =
      ["catalog", "grants", "contextual_routing", "security_policy",
       "gateway_token", "_bundle_metadata"] ∧
    ((jset (fetch_npl_data true pd tok jloads) "_bundle_metadata" meta).map
        Prod.fst).Perm manifestRoots ∧
    (fetch_npl_data false pd tok jloads).map Prod.fst =
      ["catalog", "grants", "contextual_routing", "gateway_token"] := by
  refine ⟨rfl, rfl, ?_, rfl⟩
  rw [show (jset (fetch_npl_data true pd tok jloads) "_bundle_metadata"
      meta).map Prod.fst =
    ["catalog", "grants", "contextual_routing", "security_policy",
     "gateway_token", "_bundle_metadata"] from rfl]
  exact List.Perm.refl _

/-- C3: two policy-data documents that are equal as JSON values (key
insertion order permuted, objects with distinct keys) produce the identical
16-character revision and ETag, for any `built_at` and `sse_event_id` — the
hash is taken over the canonical serialization of the document before
`_bundle_metadata` is injected. -/
theorem revision_canonical_invariance (d1 d2 : PolicyDoc) (iso1 iso2 : String)
    (sse1 sse2 : Option String) (h : JEquiv (.obj d1) (.obj d2))
    (w1 : wfJ (.obj d1) = true) (w2 : wfJ (.obj d2) = true) :
    (build_bundle d1 iso1 sse1).revision =
      (build_bundle d2 iso2 sse2).revision ∧
    (build_bundle d1 iso1 sse1).etag = (build_bundle d2 iso2 sse2).etag ∧
    (build_bundle d1 iso1 sse1).revision = sha16 (dumpsCanonical (.obj d1)) ∧
    (build_bundle d1 iso1 sse1).revision.length = 16 := by
  have hc : canon (.obj d1) = canon (.obj d2) := jequiv_canon h w1 w2
  have hrev : (build_bundle d1 iso1 sse1).revision =
      (build_bundle d2 iso2 sse2).revision := by
    rw [build_bundle_revision, build_bundle_revision]
    unfold dumpsCanonical
    rw [hc]
  refine ⟨hrev, ?_, rfl, ?_⟩
  · rw [build_bundle_etag, build_bundle_etag, hrev]
  · rw [build_bundle_revision]
    exact sha16_length _

/-- One key order of the C3 witness document. -/
def c3doc1 : PolicyDoc :=
  [("b", .num 1), ("a", .obj [("y", .num 2), ("x", .num 3)])]

/-- The same document with both the outer and the inner key order permuted. -/
def c3doc2 : PolicyDoc :=
  [("a", .obj [("x", .num 3), ("y", .num 2)]), ("b", .num 1)]

/-- Witness for C3: permuting the key insertion order at both nesting levels
(and changing `built_at` and `sse_event_id`) leaves the revision unchanged. -/
theorem revision_canonical_invariance_witness :
    JEquiv (.obj c3doc1) (.obj c3doc2) ∧ wfJ (.obj c3doc1) = true ∧
    wfJ (.obj c3doc2) = true ∧
    (build_bundle c3doc1 "2026-01-01T00:00:00Z" (some "7")).revision =
      (build_bundle c3doc2 "2026-02-02T00:00:00Z" none).revision := by
  have hinner : JEquiv (.obj [("y", Json.num 2), ("x", Json.num 3)])
      (.obj [("x", Json.num 3), ("y", Json.num 2)]) := by
    refine @JEquiv.obj _ [("y", Json.num 2), ("x", Json.num 3)] _ rfl
      ?_ ?_ ?_
    · intro i h1 h2
      rfl
    · intro i h1 h2
      exact jequiv_refl _
    · exact List.Perm.swap _ _ _
  have h : JEquiv (.obj c3doc1) (.obj c3doc2) := by
    refine @JEquiv.obj _ [("b", Json.num 1),
      ("a", Json.obj [("x", Json.num 3), ("y", Json.num 2)])] _ rfl ?_ ?_ ?_
    · intro i h1 h2
      match i with
      | 0 => rfl
      | 1 => rfl
      | n + 2 => exact absurd h1 (by simp [c3doc1])
    · intro i h1 h2
      match i with
      | 0 => exact jequiv_refl _
      | 1 => exact hinner
      | n + 2 => exact absurd h1 (by simp [c3doc1])
    · exact List.Perm.swap _ _ _
  exact ⟨h, rfl, rfl,
    (revision_canonical_invariance c3doc1 c3doc2 "2026-01-01T00:00:00Z"
      "2026-02-02T00:00:00Z" (some "7") none h rfl rfl).1⟩
